import Mathlib

/-!
Verification development for the keras-resnet repository.

The repository has three Python source files:
  * resnet.py      — declarative assembly of ResNet-18/34/50/101/152 from
                     Keras layer primitives;
  * binarize-one.py — image binarization (channel blend, adaptive threshold,
                     morphological opening);
  * predict.py     — loads an image, binarizes it, resizes to 400x400 and
                     classifies it with a trained model into seven labels.

The embedding below models the network construction as a symbolic trace of
the layer objects the Python code instantiates, in construction order,
together with static shape propagation for the (rows, cols, channels)
tensor shapes that drive the shortcut logic.  Image-processing calls are
modelled as a symbolic pipeline expression, and the morphological opening
additionally gets a concrete pixel-level semantics.
-/

namespace Resnet

/-- Static shape of a 4-D activation tensor, batch axis dropped:
`(rows, cols, channels)` with `channels_last` data format
(`ROW_AXIS = 1`, `COL_AXIS = 2`, `CHANNEL_AXIS = 3` in resnet.py). -/
structure Shape where
  rows : Nat
  cols : Nat
  channels : Nat
deriving DecidableEq

/-- Conv2D / pooling padding mode. -/
inductive Padding
  | same
  | valid
deriving DecidableEq

/-- One Keras layer object, as instantiated by resnet.py.  `shortcutProj`
marks the 1x1 projection convolution created inside `_shortcut` (the only
conv call site that is not on the main path). -/
inductive Layer
  | conv2d (filters kh kw sh sw : Nat) (padding : Padding) (shortcutProj : Bool)
  | batchNorm
  | relu
  | maxPool (ph pw sh sw : Nat)
  | avgPool (ph pw sh sw : Nat)
  | flatten
  | dense (units : Nat)
  | addMerge
deriving DecidableEq

/-- `⌈n / s⌉`, the output size of a `"same"`-padded convolution or pooling
of input size `n` and stride `s`. -/
def ceilDiv (n s : Nat) : Nat := (n + s - 1) / s

/-- Spatial output size of a convolution/pooling: `"same"` gives
`⌈n / s⌉`; `"valid"` with kernel `k` gives `(n - k) / s + 1`. -/
def convOutDim : Padding → Nat → Nat → Nat → Nat
  | .same, n, _, s => ceilDiv n s
  | .valid, n, k, s => if k ≤ n then (n - k) / s + 1 else 0

/-- Instantiating `Conv2D(filters, (kh, kw), strides=(sh, sw), padding)`
and applying it to a tensor of shape `t`: appends the layer to the trace
and propagates the shape. -/
def applyConv2D (filters kh kw sh sw : Nat) (p : Padding) (proj : Bool)
    (t : Shape) (log : List Layer) : Shape × List Layer :=
  (⟨convOutDim p t.rows kh sh, convOutDim p t.cols kw sw, filters⟩,
   log ++ [.conv2d filters kh kw sh sw p proj])

/-- `_bn_relu`: BatchNormalization followed by relu Activation; shape
unchanged. -/
def _bn_relu (t : Shape) (log : List Layer) : Shape × List Layer :=
  (t, log ++ [.batchNorm, .relu])

/-- `_conv_bn_relu`: Conv2D (padding `"same"`) then `_bn_relu`. -/
def _conv_bn_relu (filters kh kw sh sw : Nat) (t : Shape) (log : List Layer) :
    Shape × List Layer :=
  let c := applyConv2D filters kh kw sh sw .same false t log
  _bn_relu c.1 c.2

/-- `_bn_relu_conv`: `_bn_relu` then Conv2D (padding `"same"`). -/
def _bn_relu_conv (filters kh kw sh sw : Nat) (t : Shape) (log : List Layer) :
    Shape × List Layer :=
  let a := _bn_relu t log
  applyConv2D filters kh kw sh sw .same false a.1 a.2

/-- Python `int(round(a / b))` on non-negative integers, with the exact
rational quotient rounded half-to-even (the float division of `_shortcut`
modelled as exact rational arithmetic). -/
def pyRound (a b : Nat) : Nat :=
  let q := a / b
  let r := a % b
  if 2 * r < b then q
  else if b < 2 * r then q + 1
  else if q % 2 = 0 then q else q + 1

/-- `_shortcut(input, residual)`: computes the rounded row/col size ratios
and the channel comparison; emits a 1x1 `"valid"` projection convolution
(strides = the rounded ratios, filters = residual channels) when a ratio
exceeds 1 or the channel counts differ, otherwise uses the input itself;
then merges with `add([shortcut, residual])`.  The merge result carries the
residual's shape (Keras `add` requires equal operand shapes, which holds in
every well-formed network this file builds). -/
def _shortcut (input residual : Shape) (log : List Layer) : Shape × List Layer :=
  let stride_width := pyRound input.rows residual.rows
  let stride_height := pyRound input.cols residual.cols
  if stride_width > 1 ∨ stride_height > 1 ∨ ¬ input.channels = residual.channels then
    let s := applyConv2D residual.channels 1 1 stride_width stride_height .valid true input log
    (residual, s.2 ++ [.addMerge])
  else
    (residual, log ++ [.addMerge])

/-- `basic_block(filters, init_strides, is_first_block_of_first_layer)`:
two 3x3 convolutions on the main path (the first one a bare Conv2D for the
very first block, `_bn_relu_conv` otherwise), then `_shortcut`. -/
def basic_block (filters : Nat) (init_strides : Nat × Nat)
    (is_first_block_of_first_layer : Bool)
    (input : Shape) (log : List Layer) : Shape × List Layer :=
  let conv1 :=
    if is_first_block_of_first_layer then
      applyConv2D filters 3 3 init_strides.1 init_strides.2 .same false input log
    else
      _bn_relu_conv filters 3 3 init_strides.1 init_strides.2 input log
  let residual := _bn_relu_conv filters 3 3 1 1 conv1.1 conv1.2
  _shortcut input residual.1 residual.2

/-- `bottleneck(filters, init_strides, is_first_block_of_first_layer)`:
1x1, 3x3, then 1x1 with `filters * 4` on the main path, then `_shortcut`. -/
def bottleneck (filters : Nat) (init_strides : Nat × Nat)
    (is_first_block_of_first_layer : Bool)
    (input : Shape) (log : List Layer) : Shape × List Layer :=
  let conv_1_1 :=
    if is_first_block_of_first_layer then
      applyConv2D filters 1 1 init_strides.1 init_strides.2 .same false input log
    else
      _bn_relu_conv filters 1 1 init_strides.1 init_strides.2 input log
  let conv_3_3 := _bn_relu_conv filters 3 3 1 1 conv_1_1.1 conv_1_1.2
  let residual := _bn_relu_conv (filters * 4) 1 1 1 1 conv_3_3.1 conv_3_3.2
  _shortcut input residual.1 residual.2

/-- The two block-building functions of resnet.py. -/
inductive BlockFn
  | basic_block
  | bottleneck
deriving DecidableEq

/-- Calling a block-building function. -/
def BlockFn.apply : BlockFn → Nat → Nat × Nat → Bool → Shape → List Layer →
    Shape × List Layer
  | .basic_block => Resnet.basic_block
  | .bottleneck => Resnet.bottleneck

/-- The per-iteration parameters of the loop body of `_residual_block`:
for block index `i`, `init_strides` is `(2, 2)` when `i == 0` and the stage
is not the first, else `(1, 1)`; `is_first_block_of_first_layer` is
`is_first_layer and i == 0`. -/
def blockParams (is_first_layer : Bool) (i : Nat) : (Nat × Nat) × Bool :=
  ((if i == 0 && !is_first_layer then (2, 2) else (1, 1)),
   is_first_layer && i == 0)

/-- `_residual_block(block_function, filters, repetitions, is_first_layer)`:
applies the block function `repetitions` times with the parameters of
`blockParams`. -/
def _residual_block (block_function : BlockFn) (filters repetitions : Nat)
    (is_first_layer : Bool) (input : Shape) (log : List Layer) :
    Shape × List Layer :=
  (List.range repetitions).foldl
    (fun acc i =>
      block_function.apply filters (blockParams is_first_layer i).1
        (blockParams is_first_layer i).2 acc.1 acc.2)
    (input, log)

/-- The Python values relevant to resnet.py's module namespace: strings,
ints, `None`, the two block-building functions, other callables and
modules. -/
inductive PyValue
  | str (s : String)
  | int (n : Int)
  | none_
  | blockFn (b : BlockFn)
  | callable (name : String)
  | module (name : String)
deriving DecidableEq

/-- Python truthiness of the modelled values. -/
def truthy : PyValue → Bool
  | .str s => !s.isEmpty
  | .int n => n != 0
  | .none_ => false
  | .blockFn _ => true
  | .callable _ => true
  | .module _ => true

/-- Whether a value is a Python string (`isinstance(·, six.string_types)`). -/
def PyValue.isStr : PyValue → Bool
  | .str _ => true
  | _ => false

/-- The module-level bindings of resnet.py (`globals()` at call time):
the imports, the three axis constants, every function defined in the file,
and the implicit `__name__` / `__doc__` (the module has no docstring, so
`__doc__` is `None`). -/
def resnetGlobals : List (String × PyValue) :=
  [("__name__", .str "resnet"), ("__doc__", .none_),
   ("six", .module "six"), ("Model", .callable "Model"),
   ("Input", .callable "Input"), ("Activation", .callable "Activation"),
   ("Dense", .callable "Dense"), ("Flatten", .callable "Flatten"),
   ("Conv2D", .callable "Conv2D"), ("MaxPooling2D", .callable "MaxPooling2D"),
   ("AveragePooling2D", .callable "AveragePooling2D"),
   ("add", .callable "add"),
   ("BatchNormalization", .callable "BatchNormalization"),
   ("l2", .callable "l2"), ("K", .module "backend"),
   ("ROW_AXIS", .int 1), ("COL_AXIS", .int 2), ("CHANNEL_AXIS", .int 3),
   ("_bn_relu", .callable "_bn_relu"),
   ("_conv_bn_relu", .callable "_conv_bn_relu"),
   ("_bn_relu_conv", .callable "_bn_relu_conv"),
   ("_shortcut", .callable "_shortcut"),
   ("_residual_block", .callable "_residual_block"),
   ("basic_block", .blockFn .basic_block),
   ("bottleneck", .blockFn .bottleneck),
   ("_get_block", .callable "_get_block"),
   ("resnet", .callable "resnet"),
   ("resnet_18", .callable "resnet_18"), ("resnet_34", .callable "resnet_34"),
   ("resnet_50", .callable "resnet_50"),
   ("resnet_101", .callable "resnet_101"),
   ("resnet_152", .callable "resnet_152")]

/-- `_get_block(identifier)`: a string is looked up in `globals()`
(`.get` yields `None` when absent) and a falsy result raises
`ValueError('Invalid ...')`; any non-string is returned unchanged. -/
def _get_block (identifier : PyValue) : Except String PyValue :=
  match identifier with
  | .str s =>
    let res := (resnetGlobals.lookup s).getD .none_
    if truthy res then .ok res else .error ("Invalid " ++ s)
  | v => .ok v

/-- `MaxPooling2D(pool_size, strides, padding="same")` applied to `t`. -/
def maxPool2D (ph pw sh sw : Nat) (t : Shape) (log : List Layer) :
    Shape × List Layer :=
  (⟨ceilDiv t.rows sh, ceilDiv t.cols sw, t.channels⟩,
   log ++ [.maxPool ph pw sh sw])

/-- `AveragePooling2D(pool_size, strides)` (default padding `"valid"`)
applied to `t`. -/
def avgPool2D (ph pw sh sw : Nat) (t : Shape) (log : List Layer) :
    Shape × List Layer :=
  (⟨convOutDim .valid t.rows ph sh, convOutDim .valid t.cols pw sw, t.channels⟩,
   log ++ [.avgPool ph pw sh sw])

/-- The stage loop of `resnet`: `for i, r in enumerate(repetitions)` builds
`_residual_block(block_fn, filters, r, is_first_layer=(i == 0))` and then
doubles `filters`. -/
def stageLoop (bfn : BlockFn) : List Nat → Nat → Nat → Shape → List Layer →
    Shape × List Layer
  | [], _, _, t, log => (t, log)
  | r :: rs, filters, i, t, log =>
    let p := _residual_block bfn filters r (i == 0) t log
    stageLoop bfn rs (filters * 2) (i + 1) p.1 p.2

/-- `resnet(input_shape, num_outputs, block_fn, repetitions)`: raises when
`len(input_shape) != 3`; otherwise builds the 7x7/2 `_conv_bn_relu` stem,
a 3x3/2 same-padded max pool, the residual stages starting at 64 filters,
a final `_bn_relu`, a global average pool, `Flatten` and a softmax `Dense`
with `num_outputs` units.  `block_fn` goes through `_get_block`; a resolved
value that is not one of the block-building functions would fail at its
first call, modelled as a `TypeError`.  The result is the construction
trace of the model's layers. -/
def resnet (input_shape : List Nat) (num_outputs : Nat) (block_fn : PyValue)
    (repetitions : List Nat) : Except String (List Layer) :=
  if input_shape.length ≠ 3 then
    .error "Input shape should be a tuple (nb_channels, nb_rows, nb_cols)"
  else
    let input : Shape :=
      ⟨input_shape.getD 0 0, input_shape.getD 1 0, input_shape.getD 2 0⟩
    let c := _conv_bn_relu 64 7 7 2 2 input []
    let p := maxPool2D 3 3 2 2 c.1 c.2
    match _get_block block_fn with
    | .error e => .error e
    | .ok (.blockFn bfn) =>
      let st := stageLoop bfn repetitions 64 0 p.1 p.2
      let ba := _bn_relu st.1 st.2
      let pool2 := avgPool2D ba.1.rows ba.1.cols 1 1 ba.1 ba.2
      .ok (pool2.2 ++ [Layer.flatten, Layer.dense num_outputs])
    | .ok _ => .error "TypeError: block_fn is not a block-building function"

/-- `resnet_18`. -/
def resnet_18 (input_shape : List Nat) (num_outputs : Nat) :
    Except String (List Layer) :=
  resnet input_shape num_outputs (.blockFn .basic_block) [2, 2, 2, 2]

/-- `resnet_34`. -/
def resnet_34 (input_shape : List Nat) (num_outputs : Nat) :
    Except String (List Layer) :=
  resnet input_shape num_outputs (.blockFn .basic_block) [3, 4, 6, 3]

/-- `resnet_50`. -/
def resnet_50 (input_shape : List Nat) (num_outputs : Nat) :
    Except String (List Layer) :=
  resnet input_shape num_outputs (.blockFn .bottleneck) [3, 4, 6, 3]

/-- `resnet_101`. -/
def resnet_101 (input_shape : List Nat) (num_outputs : Nat) :
    Except String (List Layer) :=
  resnet input_shape num_outputs (.blockFn .bottleneck) [3, 4, 23, 3]

/-- `resnet_152`. -/
def resnet_152 (input_shape : List Nat) (num_outputs : Nat) :
    Except String (List Layer) :=
  resnet input_shape num_outputs (.blockFn .bottleneck) [3, 8, 36, 3]

/-- Weight-carrying layers, projection-shortcut convolutions excluded:
a main-path `Conv2D` or a `Dense` counts 1, everything else 0. -/
def layerWeight : Layer → Nat
  | .conv2d _ _ _ _ _ _ proj => if proj then 0 else 1
  | .dense _ => 1
  | _ => 0

/-- Number of weighted layers of a trace (convolutions on the main path
plus dense layers; batch norm, activations, pooling, merges and the
projection shortcuts do not count). -/
def weightedLayerCount (log : List Layer) : Nat :=
  (log.map layerWeight).sum

/-- Main-path convolutions of a trace: `(filters, kh, kw)` of every
non-shortcut `Conv2D`, in order. -/
def mainConvKernels (log : List Layer) : List (Nat × Nat × Nat) :=
  log.filterMap fun l =>
    match l with
    | .conv2d f kh kw _ _ _ false => some (f, kh, kw)
    | _ => none

/-- Weighted layers contributed by one residual block: 2 for
`basic_block`, 3 for `bottleneck`. -/
def blockCost : BlockFn → Nat
  | .basic_block => 2
  | .bottleneck => 3

end Resnet

namespace Vision

/-- cv2 imread flag used by the repository. -/
inductive ImreadFlag
  | IMREAD_COLOR
deriving DecidableEq

/-- cv2 adaptive threshold method. -/
inductive AdaptiveMethod
  | ADAPTIVE_THRESH_MEAN_C
  | ADAPTIVE_THRESH_GAUSSIAN_C
deriving DecidableEq

/-- cv2 threshold type. -/
inductive ThresholdType
  | THRESH_BINARY
  | THRESH_BINARY_INV
deriving DecidableEq

/-- cv2 morphological operation used by the repository. -/
inductive MorphOp
  | MORPH_OPEN
deriving DecidableEq

/-- Symbolic image expressions: the dataflow of the cv2/numpy calls the
repository makes.  `channel e i` is the numpy slice `e[:, :, i]`;
`zeros h w c` is `np.zeros((h, w, c))`; `setChannel d i s` is the
assignment `d[:, :, i] = s`; `morphologyEx e op kh kw` uses the all-ones
structuring element `np.ones((kh, kw))`; `resize e dw dh` is
`cv2.resize(e, (dw, dh))`. -/
inductive CVImage
  | imread (path : String) (flag : ImreadFlag)
  | channel (img : CVImage) (idx : Nat)
  | addWeighted (a : CVImage) (alpha : ℚ) (b : CVImage) (beta gamma : ℚ)
  | adaptiveThreshold (src : CVImage) (maxValue : Nat) (method : AdaptiveMethod)
      (thresholdType : ThresholdType) (blockSize : Nat) (c : Int)
  | morphologyEx (src : CVImage) (op : MorphOp) (kh kw : Nat)
  | resize (src : CVImage) (dw dh : Nat)
  | zeros (h w c : Nat)
  | setChannel (dst : CVImage) (idx : Nat) (src : CVImage)
  | expandDims (src : CVImage) (axis : Nat)
deriving DecidableEq

/-- `binarize(img)` from binarize-one.py: blend the red (index 2) and
green (index 1) channels with weights 0.5/0.5 and offset 0, adaptive
Gaussian threshold with max value 255, inverted-binary mode, block size 9
and constant 10, then a morphological opening with the `np.ones((1, 1))`
kernel. -/
def binarize (img : CVImage) : CVImage :=
  let green := CVImage.channel img 1
  let red := CVImage.channel img 2
  let redGreen := CVImage.addWeighted red (1 / 2) green (1 / 2) 0
  let th_red := CVImage.adaptiveThreshold redGreen 255
    .ADAPTIVE_THRESH_GAUSSIAN_C .THRESH_BINARY_INV 9 10
  let th_red2 := CVImage.morphologyEx th_red .MORPH_OPEN 1 1
  th_red2

/-- All channel indices an expression slices out of its inputs, in the
order the slices are taken. -/
def channelsRead : CVImage → List Nat
  | .imread _ _ => []
  | .channel e i => channelsRead e ++ [i]
  | .addWeighted a _ b _ _ => channelsRead a ++ channelsRead b
  | .adaptiveThreshold e _ _ _ _ _ => channelsRead e
  | .morphologyEx e _ _ _ => channelsRead e
  | .resize e _ _ => channelsRead e
  | .zeros _ _ _ => []
  | .setChannel d _ s => channelsRead d ++ channelsRead s
  | .expandDims e _ => channelsRead e

/-- Static numpy shape of an expression, given that the loaded color image
has `h` rows, `w` columns (and 3 channels). -/
def exprShape (h w : Nat) : CVImage → List Nat
  | .imread _ _ => [h, w, 3]
  | .channel e _ => (exprShape h w e).take 2
  | .addWeighted a _ _ _ _ => exprShape h w a
  | .adaptiveThreshold e _ _ _ _ _ => exprShape h w e
  | .morphologyEx e _ _ _ => exprShape h w e
  | .resize e dw dh =>
    match exprShape h w e with
    | _ :: _ :: rest => dh :: dw :: rest
    | s => s
  | .zeros hh ww c => [hh, ww, c]
  | .setChannel d _ _ => exprShape h w d
  | .expandDims e axis =>
    ((exprShape h w e).take axis) ++ 1 :: (exprShape h w e).drop axis

/-- A concrete single-channel raster: `pix y x` is the value at row `y`,
column `x` (uint8 values, modelled as `Nat`). -/
structure Image where
  h : Nat
  w : Nat
  pix : Nat → Nat → Nat

/-- Pixel read with constant border padding, for kernel positions that
fall outside the raster. -/
def borderPix (img : Image) (pad : Nat) (y x : Int) : Nat :=
  if 0 ≤ y ∧ y < (img.h : Int) ∧ 0 ≤ x ∧ x < (img.w : Int) then
    img.pix y.toNat x.toNat
  else pad

/-- The pixel values an all-ones `kh × kw` structuring element (anchor at
`(kh / 2, kw / 2)`, the cv2 default) covers around `(y, x)`. -/
def kernelReads (img : Image) (pad : Nat) (kh kw : Nat) (y x : Nat) :
    List Nat :=
  (List.range kh).flatMap fun i =>
    (List.range kw).map fun j =>
      borderPix img pad ((y : Int) + (i : Int) - ((kh / 2 : Nat) : Int))
        ((x : Int) + (j : Int) - ((kw / 2 : Nat) : Int))

/-- `cv2.erode` with an all-ones `kh × kw` kernel: pointwise minimum over
the covered neighbourhood, positions outside the raster padded with the
erosion-neutral maximum. -/
def erode (kh kw : Nat) (img : Image) : Image :=
  ⟨img.h, img.w, fun y x => ((kernelReads img 255 kh kw y x).min?).getD 255⟩

/-- `cv2.dilate` with an all-ones `kh × kw` kernel: pointwise maximum,
positions outside the raster padded with the dilation-neutral minimum. -/
def dilate (kh kw : Nat) (img : Image) : Image :=
  ⟨img.h, img.w, fun y x => ((kernelReads img 0 kh kw y x).max?).getD 0⟩

/-- Concrete semantics of `cv2.morphologyEx` for the operation the
repository uses: opening = erosion followed by dilation. -/
def morphologyExConcrete : MorphOp → Nat → Nat → Image → Image
  | .MORPH_OPEN, kh, kw, img => dilate kh kw (erode kh kw img)

end Vision

namespace Predict

/-- The seven class labels of predict.py, in scoreboard order. -/
def labels : List String :=
  ["FBMessanger", "Instagram", "Invalid", "LINE", "Others", "Pairs", "Twitter"]

/-- `np.argmax` over a score vector: the first index attaining the
maximum (prediction scores modelled as exact rationals). -/
def argmax : List ℚ → Nat
  | [] => 0
  | [_] => 0
  | x :: y :: xs =>
    let r := argmax (y :: xs)
    if x < (y :: xs).getD r 0 then r + 1 else 0

/-- The service name predict.py prints: `labels[np.argmax(pred)]`. -/
def service (pred : List ℚ) : String := labels.getD (argmax pred) ""

/-- The array predict.py hands to `model.predict`: the loaded color image
is binarized, resized to 400x400, written into channel 0 of a
`(400, 400, 1)` zero array, and a batch axis is prepended with
`np.expand_dims(·, axis=0)`. -/
def predict_input (path : String) : Vision.CVImage :=
  let img := Vision.CVImage.imread path .IMREAD_COLOR
  let binary := Vision.CVImage.resize (Vision.binarize img) 400 400
  let img2 := Vision.CVImage.setChannel (Vision.CVImage.zeros 400 400 1) 0 binary
  Vision.CVImage.expandDims img2 0

end Predict

namespace Resnet

theorem weightedLayerCount_append (a b : List Layer) :
    weightedLayerCount (a ++ b) = weightedLayerCount a + weightedLayerCount b := by
  simp [weightedLayerCount]

theorem wlc_applyConv2D_main (f kh kw sh sw : Nat) (p : Padding) (t : Shape)
    (log : List Layer) :
    weightedLayerCount ((applyConv2D f kh kw sh sw p false t log).2) =
      weightedLayerCount log + 1 := by
  simp [applyConv2D, weightedLayerCount, layerWeight]

theorem wlc_bn_relu (t : Shape) (log : List Layer) :
    weightedLayerCount ((_bn_relu t log).2) = weightedLayerCount log := by
  simp [_bn_relu, weightedLayerCount, layerWeight]

theorem wlc_conv_bn_relu (f kh kw sh sw : Nat) (t : Shape) (log : List Layer) :
    weightedLayerCount ((_conv_bn_relu f kh kw sh sw t log).2) =
      weightedLayerCount log + 1 := by
  simp [_conv_bn_relu, wlc_bn_relu, wlc_applyConv2D_main]

theorem wlc_bn_relu_conv (f kh kw sh sw : Nat) (t : Shape) (log : List Layer) :
    weightedLayerCount ((_bn_relu_conv f kh kw sh sw t log).2) =
      weightedLayerCount log + 1 := by
  simp [_bn_relu_conv, _bn_relu, applyConv2D, weightedLayerCount, layerWeight]

theorem wlc_shortcut (a b : Shape) (log : List Layer) :
    weightedLayerCount ((_shortcut a b log).2) = weightedLayerCount log := by
  simp only [_shortcut]
  split_ifs <;> simp [applyConv2D, weightedLayerCount, layerWeight]

theorem wlc_basic_block (f : Nat) (st : Nat × Nat) (fl : Bool) (t : Shape)
    (log : List Layer) :
    weightedLayerCount ((basic_block f st fl t log).2) =
      weightedLayerCount log + 2 := by
  cases fl <;>
    simp [basic_block, wlc_shortcut, wlc_bn_relu_conv, wlc_applyConv2D_main]

theorem wlc_bottleneck (f : Nat) (st : Nat × Nat) (fl : Bool) (t : Shape)
    (log : List Layer) :
    weightedLayerCount ((bottleneck f st fl t log).2) =
      weightedLayerCount log + 3 := by
  cases fl <;>
    simp [bottleneck, wlc_shortcut, wlc_bn_relu_conv, wlc_applyConv2D_main]

theorem wlc_block_apply (b : BlockFn) (f : Nat) (st : Nat × Nat) (fl : Bool)
    (t : Shape) (log : List Layer) :
    weightedLayerCount ((b.apply f st fl t log).2) =
      weightedLayerCount log + blockCost b := by
  cases b <;> simp [BlockFn.apply, blockCost, wlc_basic_block, wlc_bottleneck]

theorem residual_block_succ (b : BlockFn) (f r : Nat) (fl : Bool) (t : Shape)
    (log : List Layer) :
    _residual_block b f (r + 1) fl t log =
      b.apply f (blockParams fl r).1 (blockParams fl r).2
        (_residual_block b f r fl t log).1 (_residual_block b f r fl t log).2 := by
  simp [_residual_block, List.range_succ]

theorem wlc_residual_block (b : BlockFn) (f : Nat) (fl : Bool) :
    ∀ (r : Nat) (t : Shape) (log : List Layer),
      weightedLayerCount ((_residual_block b f r fl t log).2) =
        weightedLayerCount log + blockCost b * r := by
  intro r
  induction r with
  | zero => intro t log; simp [_residual_block]
  | succ n ih =>
    intro t log
    rw [residual_block_succ, wlc_block_apply, ih]
    ring

theorem wlc_stageLoop (b : BlockFn) :
    ∀ (rs : List Nat) (f i : Nat) (t : Shape) (log : List Layer),
      weightedLayerCount ((stageLoop b rs f i t log).2) =
        weightedLayerCount log + blockCost b * rs.sum := by
  intro rs
  induction rs with
  | nil => intro f i t log; simp [stageLoop]
  | cons r rs ih =>
    intro f i t log
    simp only [stageLoop]
    rw [ih, wlc_residual_block, List.sum_cons]
    ring

theorem wlc_resnet (bfn : BlockFn) (reps : List Nat) (shape : List Nat)
    (outs : Nat) (h : shape.length = 3) :
    ∃ log, resnet shape outs (.blockFn bfn) reps = .ok log ∧
      weightedLayerCount log = 2 + blockCost bfn * reps.sum := by
  unfold resnet
  rw [if_neg (by simp [h])]
  refine ⟨_, rfl, ?_⟩
  simp only [avgPool2D, maxPool2D, weightedLayerCount_append, wlc_bn_relu,
    wlc_stageLoop, wlc_conv_bn_relu]
  simp [weightedLayerCount, layerWeight]
  ring

end Resnet

namespace Resnet

/-- C1: for every `input_shape` of length 3 and every `num_outputs`, the
constructor `resnet_N` (N in 18/34/50/101/152) builds a network whose
number of weighted layers — the initial 7x7 convolution, plus 2 main-path
convolutions per basic block and 3 per bottleneck block summed over the
stage repetition list, plus the final dense layer, projection-shortcut
convolutions not counted — equals N. -/
theorem claim_resnet_depth_layer_count (shape : List Nat) (outs : Nat)
    (h : shape.length = 3) :
    (∃ log, resnet_18 shape outs = .ok log ∧ weightedLayerCount log = 18) ∧
    (∃ log, resnet_34 shape outs = .ok log ∧ weightedLayerCount log = 34) ∧
    (∃ log, resnet_50 shape outs = .ok log ∧ weightedLayerCount log = 50) ∧
    (∃ log, resnet_101 shape outs = .ok log ∧ weightedLayerCount log = 101) ∧
    (∃ log, resnet_152 shape outs = .ok log ∧ weightedLayerCount log = 152) := by
  refine ⟨?_, ?_, ?_, ?_, ?_⟩
  · simpa [resnet_18, blockCost] using wlc_resnet .basic_block [2, 2, 2, 2] shape outs h
  · simpa [resnet_34, blockCost] using wlc_resnet .basic_block [3, 4, 6, 3] shape outs h
  · simpa [resnet_50, blockCost] using wlc_resnet .bottleneck [3, 4, 6, 3] shape outs h
  · simpa [resnet_101, blockCost] using wlc_resnet .bottleneck [3, 4, 23, 3] shape outs h
  · simpa [resnet_152, blockCost] using wlc_resnet .bottleneck [3, 8, 36, 3] shape outs h

/-- Witness for C1 at the concrete input shape `[400, 400, 1]` with 7
outputs. -/
theorem claim_resnet_depth_layer_count_witness :
    ∃ log, resnet_18 [400, 400, 1] 7 = .ok log ∧ weightedLayerCount log = 18 :=
  (claim_resnet_depth_layer_count [400, 400, 1] 7 rfl).1

/-- C2 counterexample: at input shape 1x1x8 and residual shape 4x4x8 the
rounded size ratios are 0, yet `_shortcut` still uses the identity
shortcut (it only projects when a ratio exceeds 1 or the channels differ),
so "identity exactly when both rounded ratios are 1 and the channels are
equal" is false at this input. -/
theorem claim_shortcut_rule_counterexample :
    ¬ (((_shortcut ⟨1, 1, 8⟩ ⟨4, 4, 8⟩ []).2 = [Layer.addMerge]) ↔
       (pyRound 1 4 = 1 ∧ pyRound 1 4 = 1 ∧ (8 : Nat) = 8)) := by
  decide

/-- C2 amended: `_shortcut` always merges with `add([shortcut, residual])`;
the shortcut is the identity exactly when both rounded size ratios are at
most 1 and the channel counts are equal, and otherwise it is a 1x1
`"valid"`-padded projection convolution with `residual.channels` filters
and the rounded ratios as strides. -/
theorem claim_shortcut_rule_amended (input residual : Shape) (log : List Layer)
    (_hr : 0 < residual.rows) (_hc : 0 < residual.cols) :
    (_shortcut input residual log).2 =
      (if pyRound input.rows residual.rows ≤ 1 ∧
          pyRound input.cols residual.cols ≤ 1 ∧
          input.channels = residual.channels
       then log ++ [Layer.addMerge]
       else log ++ [Layer.conv2d residual.channels 1 1
              (pyRound input.rows residual.rows)
              (pyRound input.cols residual.cols) Padding.valid true,
              Layer.addMerge]) := by
  simp only [_shortcut, applyConv2D]
  split_ifs with h1 h2 h3
  · exfalso
    rcases h1 with h | h | h
    · omega
    · omega
    · exact h h2.2.2
  · simp
  · simp
  · exfalso
    push_neg at h1
    exact h3 ⟨h1.1, h1.2.1, h1.2.2⟩

/-- Witness for C2 amended: the stage transition 56x56x64 to 28x28x128
takes the projection branch with stride 2 and 128 filters. -/
theorem claim_shortcut_rule_amended_witness :
    (_shortcut ⟨56, 56, 64⟩ ⟨28, 28, 128⟩ []).2 =
      [Layer.conv2d 128 1 1 2 2 Padding.valid true, Layer.addMerge] := by
  have h := claim_shortcut_rule_amended ⟨56, 56, 64⟩ ⟨28, 28, 128⟩ []
    (by decide) (by decide)
  rw [h]
  decide

theorem mainConvKernels_append (a b : List Layer) :
    mainConvKernels (a ++ b) = mainConvKernels a ++ mainConvKernels b := by
  simp [mainConvKernels]

theorem mck_shortcut (a b : Shape) (log : List Layer) :
    mainConvKernels ((_shortcut a b log).2) = mainConvKernels log := by
  simp only [_shortcut, applyConv2D]
  split_ifs <;> simp [mainConvKernels]

theorem mck_bn_relu_conv (f kh kw sh sw : Nat) (t : Shape) (log : List Layer) :
    mainConvKernels ((_bn_relu_conv f kh kw sh sw t log).2) =
      mainConvKernels log ++ [(f, kh, kw)] := by
  simp [_bn_relu_conv, _bn_relu, applyConv2D, mainConvKernels]

theorem mck_applyConv2D_main (f kh kw sh sw : Nat) (p : Padding) (t : Shape)
    (log : List Layer) :
    mainConvKernels ((applyConv2D f kh kw sh sw p false t log).2) =
      mainConvKernels log ++ [(f, kh, kw)] := by
  simp [applyConv2D, mainConvKernels]

theorem mck_basic_block (f : Nat) (st : Nat × Nat) (fl : Bool) (t : Shape)
    (log : List Layer) :
    mainConvKernels ((basic_block f st fl t log).2) =
      mainConvKernels log ++ [(f, 3, 3), (f, 3, 3)] := by
  cases fl <;>
    simp [basic_block, mck_shortcut, mck_bn_relu_conv, mck_applyConv2D_main]

theorem mck_bottleneck (f : Nat) (st : Nat × Nat) (fl : Bool) (t : Shape)
    (log : List Layer) :
    mainConvKernels ((bottleneck f st fl t log).2) =
      mainConvKernels log ++ [(f, 1, 1), (f, 3, 3), (f * 4, 1, 1)] := by
  cases fl <;>
    simp [bottleneck, mck_shortcut, mck_bn_relu_conv, mck_applyConv2D_main]

/-- C5: the block type is selected by depth.  `resnet_18` and `resnet_34`
pass `basic_block` to `resnet` while `resnet_50`, `resnet_101` and
`resnet_152` — exactly the constructors of depth greater than 34 — pass
`bottleneck`; a basic block contributes two 3x3 main-path convolutions,
and a bottleneck block a 1x1, a 3x3, then a 1x1 with `filters * 4`. -/
theorem claim_block_type_by_depth :
    (∀ s o, resnet_18 s o = resnet s o (.blockFn .basic_block) [2, 2, 2, 2]) ∧
    (∀ s o, resnet_34 s o = resnet s o (.blockFn .basic_block) [3, 4, 6, 3]) ∧
    (∀ s o, resnet_50 s o = resnet s o (.blockFn .bottleneck) [3, 4, 6, 3]) ∧
    (∀ s o, resnet_101 s o = resnet s o (.blockFn .bottleneck) [3, 4, 23, 3]) ∧
    (∀ s o, resnet_152 s o = resnet s o (.blockFn .bottleneck) [3, 8, 36, 3]) ∧
    (∀ f st fl t log, mainConvKernels ((BlockFn.apply .basic_block f st fl t log).2) =
      mainConvKernels log ++ [(f, 3, 3), (f, 3, 3)]) ∧
    (∀ f st fl t log, mainConvKernels ((BlockFn.apply .bottleneck f st fl t log).2) =
      mainConvKernels log ++ [(f, 1, 1), (f, 3, 3), (f * 4, 1, 1)]) := by
  exact ⟨fun s o => rfl, fun s o => rfl, fun s o => rfl, fun s o => rfl,
    fun s o => rfl,
    fun f st fl t log => mck_basic_block f st fl t log,
    fun f st fl t log => mck_bottleneck f st fl t log⟩

end Resnet

namespace Resnet

/-- C7 counterexample: the source does raise errors of its own — `resnet`
raises when `len(input_shape) != 3` and `_get_block` raises `ValueError`
for an unknown identifier string — so "no function in the source raises or
catches an error of its own" is false at these concrete inputs. -/
theorem claim_no_own_raises_counterexample :
    (resnet [] 1 (.blockFn .basic_block) []).isOk = false ∧
    (_get_block (.str "no_such_global")).isOk = false := by
  exact ⟨rfl, rfl⟩

/-- C7 amended: the source catches nothing, and its only own failure
signals are the two explicit raises: `resnet` fails exactly when the
input shape does not have length 3, `_get_block` on a string fails exactly
when the name is not bound to a truthy module global, and `_get_block`
passes every non-string through without failing. -/
theorem claim_failure_handling_amended :
    (∀ (shape : List Nat) (outs : Nat) (bfn : BlockFn) (reps : List Nat),
      (resnet shape outs (.blockFn bfn) reps).isOk = true ↔ shape.length = 3) ∧
    (∀ s : String, (_get_block (.str s)).isOk = true ↔
      truthy ((resnetGlobals.lookup s).getD .none_) = true) ∧
    (∀ v : PyValue, v.isStr = false → (_get_block v).isOk = true) := by
  refine ⟨?_, ?_, ?_⟩
  · intro shape outs bfn reps
    by_cases h : shape.length = 3 <;> simp [resnet, h, _get_block, Except.isOk, Except.toBool]
  · intro s
    by_cases h : truthy ((resnetGlobals.lookup s).getD .none_) <;>
      simp [_get_block, h, Except.isOk, Except.toBool]
  · intro v hv
    cases v <;> simp_all [_get_block, PyValue.isStr, Except.isOk, Except.toBool]

/-- Witness for C7 amended: a well-formed call succeeds, `__doc__` (bound
to `None`, which is falsy) makes `_get_block` fail, and an int passes
through. -/
theorem claim_failure_handling_amended_witness :
    (resnet [400, 400, 1] 7 (.blockFn .basic_block) [2, 2, 2, 2]).isOk = true ∧
    (_get_block (.str "__doc__")).isOk ≠ true ∧
    (_get_block (.int 1)).isOk = true := by
  refine ⟨(claim_failure_handling_amended.1 [400, 400, 1] 7 .basic_block
      [2, 2, 2, 2]).mpr rfl, ?_,
    claim_failure_handling_amended.2.2 (.int 1) rfl⟩
  rw [Ne, claim_failure_handling_amended.2.1 "__doc__"]
  decide

/-- C9: in the loop of `_residual_block` over a stage with `r ≥ 1`
repetitions, block 0 gets `init_strides (2, 2)` exactly when the stage is
not the first (else `(1, 1)`), every later block gets `(1, 1)`, and
`is_first_block_of_first_layer` holds exactly for block 0 of the first
stage; hence strided downsampling happens at most once per stage and never
in the first stage. -/
theorem claim_residual_block_strides (first : Bool) (r : Nat) (_hr : 1 ≤ r) :
    ((blockParams first 0).1 = if first then (1, 1) else (2, 2)) ∧
    (∀ i, 0 < i → (blockParams first i).1 = (1, 1)) ∧
    (∀ i, ((blockParams first i).2 = true ↔ first = true ∧ i = 0)) ∧
    (∀ b f t log, _residual_block b f r first t log =
      (List.range r).foldl
        (fun acc i => BlockFn.apply b f (blockParams first i).1
          (blockParams first i).2 acc.1 acc.2) (t, log)) := by
  refine ⟨?_, ?_, ?_, fun b f t log => rfl⟩
  · cases first <;> rfl
  · intro i hi
    have h0 : i ≠ 0 := by omega
    simp [blockParams, h0]
  · intro i
    cases first <;> simp [blockParams]

/-- Witness for C9 at a non-first stage with two repetitions: block 0 is
strided, block 1 is not. -/
theorem claim_residual_block_strides_witness :
    ((blockParams false 0).1 = if false then (1, 1) else (2, 2)) ∧
    (blockParams false 1).1 = (1, 1) := by
  exact ⟨(claim_residual_block_strides false 2 (by decide)).1,
    (claim_residual_block_strides false 2 (by decide)).2.1 1 (by decide)⟩

/-- C10: `_get_block` returns any non-string argument unchanged; a string
argument is looked up among the module-level globals, the binding is
returned when it is truthy, and a `ValueError` is raised exactly when the
name is unbound (`globals().get` yields `None`) or bound to a falsy
value. -/
theorem claim_get_block_semantics :
    (∀ v : PyValue, v.isStr = false → _get_block v = .ok v) ∧
    (∀ s : String, _get_block (.str s) =
      (if truthy ((resnetGlobals.lookup s).getD .none_)
       then .ok ((resnetGlobals.lookup s).getD .none_)
       else .error ("Invalid " ++ s))) ∧
    (∀ s : String, (∃ e, _get_block (.str s) = .error e) ↔
      (resnetGlobals.lookup s = none ∨
       ∃ v, resnetGlobals.lookup s = some v ∧ truthy v = false)) := by
  refine ⟨?_, fun s => rfl, ?_⟩
  · intro v hv
    cases v <;> simp_all [_get_block, PyValue.isStr]
  · intro s
    rcases h : resnetGlobals.lookup s with _ | v
    · simp [_get_block, h, truthy]
    · cases htr : truthy v <;> simp [_get_block, h, htr]

/-- Witness for C10: an int (not a string) passes through unchanged. -/
theorem claim_get_block_semantics_witness :
    _get_block (.int 5) = .ok (.int 5) :=
  claim_get_block_semantics.1 (.int 5) rfl

end Resnet

namespace Vision

/-- C3: `binarize` performs exactly, and in this order: a 0.5/0.5 weighted
blend of the red channel (index 2) and the green channel (index 1) with
offset 0 — the blue channel (index 0) is never read — then an adaptive
threshold with the Gaussian method, max value 255, inverted-binary mode,
block size 9 and constant 10, then a morphological opening. -/
theorem claim_binarize_steps (img : CVImage) (path : String) :
    binarize img =
      .morphologyEx
        (.adaptiveThreshold
          (.addWeighted (.channel img 2) (1 / 2) (.channel img 1) (1 / 2) 0)
          255 .ADAPTIVE_THRESH_GAUSSIAN_C .THRESH_BINARY_INV 9 10)
        .MORPH_OPEN 1 1 ∧
    channelsRead (binarize (.imread path .IMREAD_COLOR)) = [2, 1] := by
  exact ⟨rfl, rfl⟩

theorem kernelReads_one (img : Image) (pad y x : Nat) :
    kernelReads img pad 1 1 y x = [borderPix img pad (y : Int) (x : Int)] := by
  have h1 : List.range 1 = [0] := rfl
  simp [kernelReads, h1]

theorem borderPix_inside (img : Image) (pad y x : Nat)
    (hy : y < img.h) (hx : x < img.w) :
    borderPix img pad (y : Int) (x : Int) = img.pix y x := by
  simp [borderPix, hy, hx]

/-- C8: the morphological opening of binarize-one.py uses the all-ones
1x1 kernel `np.ones((1, 1))`, and opening with a 1x1 kernel is the
identity on every pixel of the raster, so the "cleaning noise" step
changes nothing and `binarize` returns exactly the adaptive-threshold
output. -/
theorem claim_open_1x1_identity (img : Image) (y x : Nat)
    (hy : y < img.h) (hx : x < img.w) :
    (morphologyExConcrete .MORPH_OPEN 1 1 img).h = img.h ∧
    (morphologyExConcrete .MORPH_OPEN 1 1 img).w = img.w ∧
    (morphologyExConcrete .MORPH_OPEN 1 1 img).pix y x = img.pix y x := by
  refine ⟨rfl, rfl, ?_⟩
  show (dilate 1 1 (erode 1 1 img)).pix y x = img.pix y x
  have he : ∀ (y2 x2 : Nat), y2 < img.h → x2 < img.w →
      (erode 1 1 img).pix y2 x2 = img.pix y2 x2 := by
    intro y2 x2 h1 h2
    show ((kernelReads img 255 1 1 y2 x2).min?).getD 255 = img.pix y2 x2
    rw [kernelReads_one, borderPix_inside img 255 y2 x2 h1 h2]
    simp [List.min?]
  show ((kernelReads (erode 1 1 img) 0 1 1 y x).max?).getD 0 = img.pix y x
  rw [kernelReads_one, borderPix_inside (erode 1 1 img) 0 y x hy hx,
    he y x hy hx]
  simp [List.max?]

/-- Witness for C8 on a concrete 2x3 raster. -/
theorem claim_open_1x1_identity_witness :
    (morphologyExConcrete .MORPH_OPEN 1 1
      ⟨2, 3, fun y x => y * 10 + x⟩).pix 1 2 = 1 * 10 + 2 :=
  (claim_open_1x1_identity ⟨2, 3, fun y x => y * 10 + x⟩ 1 2
    (by decide) (by decide)).2.2

end Vision

namespace Predict

theorem argmax_lt_length : ∀ (xs : List ℚ) (x : ℚ),
    argmax (x :: xs) < (x :: xs).length := by
  intro xs
  induction xs with
  | nil => intro x; simp [argmax]
  | cons y t ih =>
    intro x
    simp only [argmax]
    split_ifs
    · have := ih y
      simp only [List.length_cons] at *
      omega
    · simp

theorem argmax_le_max : ∀ (xs : List ℚ) (x : ℚ) (j : Nat),
    j < (x :: xs).length →
    (x :: xs).getD j 0 ≤ (x :: xs).getD (argmax (x :: xs)) 0 := by
  intro xs
  induction xs with
  | nil =>
    intro x j hj
    simp only [List.length_cons, List.length_nil] at hj
    have hj0 : j = 0 := by omega
    subst hj0
    simp [argmax]
  | cons y t ih =>
    intro x j hj
    simp only [argmax]
    split_ifs with hlt
    · cases j with
      | zero => simpa using le_of_lt hlt
      | succ k =>
        have hk : k < (y :: t).length := by
          simp only [List.length_cons] at hj ⊢; omega
        simpa using ih y k hk
    · push_neg at hlt
      cases j with
      | zero => simp
      | succ k =>
        have hk : k < (y :: t).length := by
          simp only [List.length_cons] at hj ⊢; omega
        have hik := ih y k hk
        simp only [List.getD_cons_succ, List.getD_cons_zero]
        exact le_trans hik hlt

theorem labels_getD_mem : ∀ i, i < 7 → labels.getD i "" ∈ labels := by
  decide

/-- C4: the classifier output is one of exactly seven app labels: for
every prediction vector of length 7, the printed service is the element of
`["FBMessanger", "Instagram", "Invalid", "LINE", "Others", "Pairs",
"Twitter"]` at the index of the maximal score. -/
theorem claim_seven_labels (pred : List ℚ) (h : pred.length = 7) :
    service pred = labels.getD (argmax pred) "" ∧
    argmax pred < 7 ∧
    service pred ∈ labels ∧
    (∀ j, j < pred.length → pred.getD j 0 ≤ pred.getD (argmax pred) 0) := by
  obtain ⟨x, xs, rfl⟩ : ∃ x xs, pred = x :: xs := by
    cases pred with
    | nil => simp at h
    | cons a l => exact ⟨a, l, rfl⟩
  have hlt : argmax (x :: xs) < 7 := by
    have := argmax_lt_length xs x
    omega
  refine ⟨rfl, hlt, ?_, fun j hj => argmax_le_max xs x j hj⟩
  exact labels_getD_mem _ hlt

/-- Witness for C4 on a concrete 7-score vector. -/
theorem claim_seven_labels_witness :
    service [1, 0, 0, 0, 0, 0, 0] ∈ labels :=
  (claim_seven_labels [1, 0, 0, 0, 0, 0, 0] rfl).2.2.1

/-- C6: predict.py never hands the raw image to the model: the array
passed to `model.predict` is, exactly, the binarized loaded color image
resized to 400x400, written as the single channel of a zero
`(400, 400, 1)` array, with a batch axis prepended — an array of shape
`(1, 400, 400, 1)`. -/
theorem claim_predict_consumes_binarized (path : String) (h w : Nat) :
    predict_input path =
      .expandDims
        (.setChannel (.zeros 400 400 1) 0
          (.resize (Vision.binarize (.imread path .IMREAD_COLOR)) 400 400)) 0 ∧
    Vision.exprShape h w (predict_input path) = [1, 400, 400, 1] := by
  exact ⟨rfl, rfl⟩

end Predict
